import Mathlib

/-!
Shallow embedding of the video-assembly pipeline of `src/services/video_service.py`
(class `VideoService`), covering:

* effect assignment and per-image animation stages (`_build_filter_complex`, lines 195-230),
* the cross-fade transition chain (`_build_filter_complex`, lines 232-263),
* caption extraction (`_extract_key_phrases`, lines 275-293),
* the caption schedule (`_create_subtitle_filter`, lines 295-330),
* the render-result interpretation (`_create_video_with_ffmpeg`, lines 160-179, and
  `create_vertical_video`, lines 40-74),
* the post-render optimizer (`optimize_for_youtube_shorts`, lines 332-379).

Durations are modelled as exact rationals (the Python floats `0.8`, `0.5`, `1.2`, ... are
the decimal literals of the source). The string-assembled FFmpeg filter graph is modelled
structurally: each f-string template of the source becomes a stage record whose fields are
exactly the variable parts of that template.
-/

namespace VideoService

/-- Fixed per-class frame rate, `self.fps = 30` (line 21). -/
def fps : ℕ := 30

/-- Crossfade length, `transition_duration = 0.8` (line 238). -/
def transition_duration : ℚ := 0.8

/-- The three motion effects of lines 198-228: Ken Burns zoom-in (`i % 3 == 0`),
slow pan right (`i % 3 == 1`), slow zoom out (otherwise). -/
inductive Animation
  | zoomIn
  | panRight
  | zoomOut
deriving DecidableEq, Repr

/-- Effect selection by image position (lines 198, 208, 219): `i % 3`. -/
def animationFor (i : ℕ) : Animation :=
  if i % 3 = 0 then .zoomIn
  else if i % 3 = 1 then .panRight
  else .zoomOut

/-- Over-scale factor used in the `scale=` part of each animation template:
`output_width * 2` (line 201), `output_width * 1.2` (line 211),
`output_width * 1.5` (line 222). -/
def overscaleFactor : Animation → ℚ
  | .zoomIn => 2
  | .panRight => 1.2
  | .zoomOut => 1.5

/-- One per-image processing stage `[i:v]scale=...,crop=...,zoompan=...,setpts=PTS-STARTPTS[vi]`
(lines 196-230): scale to overscan, center-crop to the output size, apply the motion
effect for `int(fps * image_duration)` frames, reset timestamps. -/
structure ImageStage where
  inputIndex : ℕ
  scaleW : ℚ
  scaleH : ℚ
  cropW : ℕ
  cropH : ℕ
  anim : Animation
  frames : ℤ
  outLabel : String
deriving DecidableEq, Repr

/-- The stage emitted for image `i` (lines 196-230). `W`, `H` are
`self.output_width`, `self.output_height`. -/
def imageStage (W H : ℕ) (image_duration : ℚ) (i : ℕ) : ImageStage :=
  { inputIndex := i
    scaleW := overscaleFactor (animationFor i) * W
    scaleH := overscaleFactor (animationFor i) * H
    cropW := W
    cropH := H
    anim := animationFor i
    frames := ⌊(fps : ℚ) * image_duration⌋
    outLabel := s!"v{i}" }

/-- One `xfade` transition stage
`[from][vi]xfade=transition=T:duration=D:offset=O[fadei]` (lines 243-260). -/
structure TransitionStage where
  fromLabel : String
  imageLabel : String
  transitionType : String
  duration : ℚ
  offset : ℚ
  outLabel : String
deriving DecidableEq, Repr, Inhabited

/-- The transition stage for loop index `i ≥ 1` of lines 243-260: `i == 1` gets
`fadeblack` with offset `image_duration - transition_duration` (lines 244-251);
later indices alternate `wiperight` / `fadeblack` by parity with offset
`i * image_duration - transition_duration` (lines 252-260). -/
def transitionStage (image_duration : ℚ) (i : ℕ) : TransitionStage :=
  if i = 1 then
    { fromLabel := "v0"
      imageLabel := s!"v{i}"
      transitionType := "fadeblack"
      duration := transition_duration
      offset := image_duration - transition_duration
      outLabel := s!"fade{i}" }
  else
    { fromLabel := s!"fade{i-1}"
      imageLabel := s!"v{i}"
      transitionType := if i % 2 = 0 then "wiperight" else "fadeblack"
      duration := transition_duration
      offset := i * image_duration - transition_duration
      outLabel := s!"fade{i}" }

/-- The whole transition chain: the loop `for i in range(1, len(image_paths))`
(line 243) over `n` images. -/
def transitionStages (n : ℕ) (image_duration : ℚ) : List TransitionStage :=
  (List.range' 1 (n - 1)).map (transitionStage image_duration)

/-- The `[base]`-producing part of the graph (lines 232-263): a single image gets
`[v0]fade=t=in:st=0:d=0.5,fade=t=out:st=image_duration-0.5:d=0.5[base]` (line 235);
several images get the transition chain followed by
`[fadeN]eq=contrast=1.1:brightness=0.05:saturation=1.2[base]` (line 263). -/
inductive BaseVideo
  | singleImage (fadeInStart fadeInDur fadeOutStart fadeOutDur : ℚ)
  | multiImage (transitions : List TransitionStage)
      (contrast brightness saturation : ℚ)
deriving DecidableEq, Repr

/-- Transition stages carried by the base video: none on the single-image branch. -/
def BaseVideo.transitions : BaseVideo → List TransitionStage
  | .singleImage _ _ _ _ => []
  | .multiImage ts _ _ _ => ts

/-- Whether the builder took the single-image fade-in/fade-out branch (line 233). -/
def BaseVideo.isSingleImageBranch : BaseVideo → Bool
  | .singleImage _ _ _ _ => true
  | .multiImage _ _ _ _ => false

/-- The branch on `len(image_paths)` of lines 232-263. -/
def buildBase (n : ℕ) (image_duration : ℚ) : BaseVideo :=
  if n = 1 then
    .singleImage 0 0.5 (image_duration - 0.5) 0.5
  else
    .multiImage (transitionStages n image_duration) 1.1 0.05 1.2

/-- Sentence boundary characters of the `re.split` pattern `[.!?]+` (line 280). -/
def isSentenceSep (c : Char) : Bool :=
  c = Char.ofNat 46 || c = Char.ofNat 33 || c = Char.ofNat 63

/-- One step of the right-to-left split: the flag records whether the character
immediately to the right is a separator, so that a maximal run of separators
produces a single boundary. -/
def splitStep (c : Char) (st : Bool × List (List Char)) : Bool × List (List Char) :=
  match st with
  | (prevSep, segs) =>
    if isSentenceSep c then
      if prevSep then (true, segs)
      else (true, [] :: segs)
    else
      match segs with
      | [] => (false, [[c]])
      | seg :: rest => (false, (c :: seg) :: rest)

/-- Split a character list at each maximal run of sentence separators, keeping the
(possibly empty) segments between runs: the semantics of `re.split` with pattern
`[.!?]+` (line 280). -/
def splitOnSeps (cs : List Char) : List (List Char) :=
  (cs.foldr splitStep (false, [[]])).2

/-- `re.split(r'[.!?]+', script_text)` of line 280. -/
def splitSentences (s : String) : List String :=
  (splitOnSeps s.data).map fun cs => String.mk cs

/-- Python `str.lower()` on the ASCII scripts handled here: character-wise
lower-casing. -/
def strLower (s : String) : String :=
  String.mk (s.data.map Char.toLower)

/-- Python `str.upper()` on the ASCII scripts handled here: character-wise
upper-casing (line 288 / line 290). -/
def strUpper (s : String) : String :=
  String.mk (s.data.map Char.toUpper)

/-- Python `str.strip()` (line 284): drop leading and trailing whitespace. -/
def strTrim (s : String) : String :=
  String.mk
    (((s.data.dropWhile Char.isWhitespace).reverse.dropWhile
        Char.isWhitespace).reverse)

/-- The curated hook-word list of line 287. -/
def hookWords : List String :=
  ["what if", "secret", "truth", "never", "hidden", "revealed"]

/-- Python substring membership `sub in s` as contiguous-sublist containment. -/
def substrIn (sub s : String) : Bool :=
  decide (sub.data <:+: s.data)

/-- Line 287: `any(word in sentence.lower() for word in [...])`. -/
def containsHook (sentence : String) : Bool :=
  hookWords.any fun w => substrIn w (strLower sentence)

/-- The loop body of lines 283-290: strip the sentence, skip it when at most 10
characters long, keep its upper-cased form when it has a hook word (line 287) or is
shorter than 50 characters (line 289). -/
def extractStep (acc : List String) (sentence : String) : List String :=
  let sentence := strTrim sentence
  if sentence.length > 10 then
    if containsHook sentence then acc ++ [strUpper sentence]
    else if sentence.length < 50 then acc ++ [strUpper sentence]
    else acc
  else acc

/-- `_extract_key_phrases` (lines 275-293): split into sentences, run the loop of
lines 283-290 accumulating `key_phrases`, return the first 4 (line 293). -/
def extract_key_phrases (script_text : String) : List String :=
  let sentences := splitSentences script_text
  let key_phrases := sentences.foldl extractStep []
  key_phrases.take 4

/-- Caption extraction as the specification words it: qualifying sentences (longer
than the minimum threshold and either hook-bearing or shorter than the
maximum-impact threshold) are kept in order, truncated to the first 4, and
upper-cased. Stated separately from `extract_key_phrases` to compare the two. -/
def captionExtractionSpec (script_text : String) : List String :=
  (((((splitSentences script_text).map strTrim).filter
      (fun s => s.length > 10 && (containsHook s || s.length < 50))).take 4).map
    strUpper)

/-- The text cleaning of line 311: backslash-escape single and double quotes
(characters 39 and 34) for the `drawtext` template. -/
def escapeDrawtext (s : String) : String :=
  String.mk (s.data.foldr
    (fun c acc =>
      if c = Char.ofNat 39 then Char.ofNat 92 :: Char.ofNat 39 :: acc
      else if c = Char.ofNat 34 then Char.ofNat 92 :: Char.ofNat 34 :: acc
      else c :: acc)
    [])

/-- One `drawtext=text='...':...:enable='between(t,start,end)'` overlay stage
(lines 314-327); the styling fields of the template are constant, so only the
variable parts are recorded. -/
structure DrawtextStage where
  text : String
  startTime : ℚ
  endTime : ℚ
deriving DecidableEq, Repr, Inhabited

/-- `_create_subtitle_filter` (lines 295-330): an empty phrase list yields no
stages (line 297); otherwise phrase `i` is shown on
`[i * total/k, (i+1) * total/k)` where `k` is the phrase count (lines 301-308). -/
def create_subtitle_filter (phrases : List String) (total_duration : ℚ) :
    List DrawtextStage :=
  if phrases = [] then []
  else
    let phrase_duration := total_duration / phrases.length
    (List.range phrases.length).map fun i =>
      { text := escapeDrawtext (phrases.getD i "")
        startTime := i * phrase_duration
        endTime := (i + 1) * phrase_duration }

/-- The whole filter graph assembled by `_build_filter_complex` (lines 181-273):
the per-image stages, the `[base]`-producing part, and the final stage
`[base]{subtitle_filter}[output]` (line 270) recorded as its input label, its
list of drawtext filters, and its output label. -/
structure FilterComplex where
  imageStages : List ImageStage
  base : BaseVideo
  finalInputLabel : String
  subtitles : List DrawtextStage
  finalOutputLabel : String
deriving DecidableEq, Repr

/-- `_build_filter_complex` (lines 181-273). The subtitle schedule is computed over
`len(image_paths) * image_duration` (line 267). -/
def build_filter_complex (W H : ℕ) (image_paths : List String)
    (image_duration : ℚ) (script_text : String) : FilterComplex :=
  { imageStages := (List.range image_paths.length).map (imageStage W H image_duration)
    base := buildBase image_paths.length image_duration
    finalInputLabel := "base"
    subtitles := create_subtitle_filter (extract_key_phrases script_text)
      (image_paths.length * image_duration)
    finalOutputLabel := "output" }

/-- The cross-fade transition stages of a built graph. -/
def FilterComplex.transitions (g : FilterComplex) : List TransitionStage :=
  g.base.transitions

/-- Lines 169-175: the render step declares success exactly when the external
process exits with code 0; no file validation happens there. -/
def interpretExitCode (returncode : ℤ) : Bool :=
  returncode = 0

/-- Names bound at module level of `src/services/video_service.py` (lines 5-14):
the imports, `logger` and the class itself. -/
def moduleGlobalNames : List String :=
  ["asyncio", "logging", "subprocess", "Path", "List", "Dict", "Optional", "json",
   "logger", "VideoService"]

/-- Names bound in the scope of `_create_video_with_ffmpeg` when its body starts
executing: its parameters (lines 104-109). No other local is assigned before
line 125 runs. -/
def ffmpegParamNames : List String :=
  ["self", "image_paths", "audio_path", "output_path", "image_duration"]

/-- Python name resolution for a name read inside `_create_video_with_ffmpeg`:
function scope, then module scope. -/
def nameInScope (n : String) : Bool :=
  ffmpegParamNames.contains n || moduleGlobalNames.contains n

/-- The `try` body of `_create_video_with_ffmpeg` (lines 123-175). Its first
statement (line 125) reads the free name `script_data`; when that name does not
resolve the body stops with a `NameError`, otherwise the body runs to the exit-code
check of lines 169-175 (the external process result is the `returncode` argument). -/
def createVideoBody (returncode : ℤ) : Except String Bool :=
  if nameInScope "script_data" then .ok (interpretExitCode returncode)
  else .error "NameError: name script_data is not defined"

/-- `_create_video_with_ffmpeg` (lines 104-179): the `except Exception` handler of
lines 177-179 turns any raised exception into the return value `False`. The
parameters are those of lines 104-109; `returncode` is the exit code the external
process would produce if the body reached it. -/
def create_video_with_ffmpeg (image_paths : List String) (audio_path : String)
    (output_path : String) (image_duration : ℚ) (returncode : ℤ) : Bool :=
  let _ := (image_paths, audio_path, output_path, image_duration)
  match createVideoBody returncode with
  | .ok ok => ok
  | .error _ => false

/-- Lines 65-70: the final outcome check `if success and output_path.exists()`.
`outputFileSize` is the state of the output file: `none` when missing, `some n`
when present with `n` bytes. Existence alone is tested. -/
def declareOutcome (success : Bool) (outputFileSize : Option ℕ)
    (output_path : String) : Option String :=
  if success && outputFileSize.isSome then some output_path else none

/-- The render orchestrator's reported outcome as a function of the external
process exit code and the resulting output-file state: the composition of
lines 169-175 with lines 65-70. -/
def renderReportedOutcome (returncode : ℤ) (outputFileSize : Option ℕ)
    (output_path : String) : Option String :=
  declareOutcome (interpretExitCode returncode) outputFileSize output_path

/-- Line 52: `image_duration = audio_duration / len(image_paths)`. -/
def imageDurationOf (audio_duration : ℚ) (n : ℕ) : ℚ :=
  audio_duration / n

/-- `create_vertical_video` (lines 23-74): fewer than 3 images is rejected
(line 41); a missing or zero (falsy) audio duration is rejected (line 47); then the
per-image duration is computed (line 52), the render step runs (whose external
process, if reached, exits with `returncode`), and the outcome check of
lines 65-70 decides the result. -/
def create_vertical_video (image_paths : List String) (audio_path : String)
    (audioDuration : Option ℚ) (returncode : ℤ) (outputFileSize : Option ℕ)
    (output_path : String) : Option String :=
  if image_paths.length < 3 then none
  else
    match audioDuration with
    | none => none
    | some total =>
      if total = 0 then none
      else
        let image_duration := imageDurationOf total image_paths.length
        let success := create_video_with_ffmpeg image_paths audio_path output_path
          image_duration returncode
        declareOutcome success outputFileSize output_path

/-- `optimize_for_youtube_shorts` (lines 332-379): `outcome` is the external
process result (`.error` when spawning raised, `.ok rc` when it exited with
code `rc`). Non-zero exit returns the original path (line 375); an exception
returns the original path (line 379); success returns the optimized path. -/
def optimize_for_youtube_shorts (video_path : String) (optimized_path : String)
    (outcome : Except String ℤ) : String :=
  match outcome with
  | .error _ => video_path
  | .ok returncode =>
    if returncode = 0 then optimized_path else video_path

/-- Whether the optimization invocation failed (non-zero exit or an exception). -/
def optimizeInvocationFailed (outcome : Except String ℤ) : Bool :=
  match outcome with
  | .error _ => true
  | .ok returncode => !(returncode = 0 : Bool)

/-- A script whose single sentence is longer than 50 characters and contains no
hook word, so no sentence qualifies for a caption. -/
def noCaptionScript : String :=
  "This sentence deliberately runs far past fifty characters without any dramatic keywords at all"

/- ### Helper lemmas -/

theorem transitionStage_offset (d : ℚ) (i : ℕ) (hi : 1 ≤ i) :
    (transitionStage d i).offset = i * d - transition_duration := by
  unfold transitionStage
  rcases eq_or_ne i 1 with h | h
  · subst h
    norm_num
  · rw [if_neg h]

theorem transitions_of_build (W H : ℕ) (imgs : List String) (d : ℚ) (s : String)
    (h : imgs.length ≠ 1) :
    (build_filter_complex W H imgs d s).transitions
      = transitionStages imgs.length d := by
  simp [build_filter_complex, FilterComplex.transitions, buildBase, h,
    BaseVideo.transitions]

theorem transitionStages_length (n : ℕ) (d : ℚ) :
    (transitionStages n d).length = n - 1 := by
  simp [transitionStages]

theorem transitionStages_getD (n : ℕ) (d : ℚ) (j : ℕ) (h : j < n - 1) :
    (transitionStages n d).getD j default = transitionStage d (1 + j) := by
  have hlt : j < ((List.range' 1 (n - 1)).map (transitionStage d)).length := by
    simpa using h
  rw [transitionStages, List.getD_eq_getElem _ _ hlt, List.getElem_map,
    List.getElem_range']
  congr 1
  omega

theorem foldl_extractStep (l : List String) (acc : List String) :
    l.foldl extractStep acc
      = acc ++ ((l.map strTrim).filter
          (fun s => s.length > 10 && (containsHook s || s.length < 50))).map
            strUpper := by
  induction l generalizing acc with
  | nil => simp
  | cons x xs ih =>
    rw [List.foldl_cons, ih]
    simp only [List.map_cons, List.filter_cons]
    by_cases h1 : (strTrim x).length > 10
    · by_cases h2 : containsHook (strTrim x) = true
      · simp [extractStep, h1, h2]
      · by_cases h3 : (strTrim x).length < 50
        · simp [extractStep, h1, h2, h3]
        · simp [extractStep, h1, h2, h3]
    · simp [extractStep, h1]

theorem create_subtitle_filter_getD (phrases : List String) (T : ℚ) (i : ℕ)
    (hne : phrases ≠ []) (hi : i < phrases.length) :
    (create_subtitle_filter phrases T).getD i default
      = { text := escapeDrawtext (phrases.getD i "")
          startTime := i * (T / phrases.length)
          endTime := (i + 1) * (T / phrases.length) } := by
  have hlt : i < ((List.range phrases.length).map fun j =>
      ({ text := escapeDrawtext (phrases.getD j "")
         startTime := j * (T / phrases.length)
         endTime := (j + 1) * (T / phrases.length) } : DrawtextStage)).length := by
    simpa using hi
  rw [create_subtitle_filter, if_neg hne]
  rw [List.getD_eq_getElem _ _ hlt, List.getElem_map, List.getElem_range]

theorem create_subtitle_filter_length (phrases : List String) (T : ℚ)
    (hne : phrases ≠ []) :
    (create_subtitle_filter phrases T).length = phrases.length := by
  rw [create_subtitle_filter, if_neg hne]
  simp

theorem partition_index_exists (k : ℕ) (T t : ℚ) (hk : 0 < k) (hT : 0 < T)
    (h0 : 0 ≤ t) (hlt : t < T) :
    ∃ i : ℕ, i < k ∧ (i : ℚ) * (T / k) ≤ t ∧ t < ((i : ℚ) + 1) * (T / k) := by
  have hkQ : (0 : ℚ) < k := by exact_mod_cast hk
  have hTk : (0 : ℚ) < T / k := div_pos hT hkQ
  set u : ℚ := t * k / T with hu
  have hu0 : 0 ≤ u := by positivity
  have huk : u < k := by
    rw [hu, div_lt_iff₀ hT]
    calc t * k < T * k := mul_lt_mul_of_pos_right hlt hkQ
    _ = k * T := mul_comm T k
  have hnn : (0 : ℤ) ≤ ⌊u⌋ := Int.floor_nonneg.mpr hu0
  have huT : u * (T / k) = t := by
    rw [hu]
    field_simp
  refine ⟨(⌊u⌋).toNat, ?_, ?_, ?_⟩
  · have h1 : ⌊u⌋ < (k : ℤ) := by
      rw [Int.floor_lt]
      exact_mod_cast huk
    omega
  · have hfl : (⌊u⌋ : ℚ) ≤ u := Int.floor_le u
    have hcast : ((⌊u⌋.toNat : ℕ) : ℚ) = ((⌊u⌋ : ℤ) : ℚ) := by
      exact_mod_cast Int.toNat_of_nonneg hnn
    rw [hcast]
    have := mul_le_mul_of_nonneg_right hfl hTk.le
    linarith
  · have hfl : u < (⌊u⌋ : ℚ) + 1 := Int.lt_floor_add_one u
    have hcast : ((⌊u⌋.toNat : ℕ) : ℚ) = ((⌊u⌋ : ℤ) : ℚ) := by
      exact_mod_cast Int.toNat_of_nonneg hnn
    rw [hcast]
    have := mul_lt_mul_of_pos_right hfl hTk
    linarith

/- ### Theorems -/

/-- C1: for `n > 1` images the graph carries exactly `n - 1` cross-fade transition
stages, and the transition for index `i` (1-based) has offset
`i * image_duration - transition_duration` where `transition_duration = 0.8 = 4/5`. -/
theorem transition_chain_offsets (W H n : ℕ) (d : ℚ) (imgs : List String)
    (script : String) (hlen : imgs.length = n) (hn : 1 < n) :
    transition_duration = 4 / 5 ∧
    (build_filter_complex W H imgs d script).transitions.length = n - 1 ∧
    ∀ i, 1 ≤ i → i ≤ n - 1 →
      ((build_filter_complex W H imgs d script).transitions.getD (i - 1)
          default).offset = i * d - 4 / 5 := by
  have h1 : imgs.length ≠ 1 := by omega
  have htd : transition_duration = 4 / 5 := by norm_num [transition_duration]
  refine ⟨htd, ?_, ?_⟩
  · rw [transitions_of_build W H imgs d script h1, hlen, transitionStages_length]
  · intro i hi1 hi2
    rw [transitions_of_build W H imgs d script h1, hlen,
      transitionStages_getD n d (i - 1) (by omega),
      show 1 + (i - 1) = i from by omega,
      transitionStage_offset d i hi1, htd]

/-- Witness for C1 at the round-trip scenario: total duration 48, 4 images, so
per-image duration 12; the three transition offsets are 11.2, 23.2, 35.2. -/
theorem transition_chain_offsets_witness :
    ["img0", "img1", "img2", "img3"].length = 4 ∧ 1 < 4 ∧
    (transition_duration = 4 / 5 ∧
      (build_filter_complex 1080 1920 ["img0", "img1", "img2", "img3"] 12
          "script").transitions.length = 3 ∧
      ∀ i, 1 ≤ i → i ≤ 3 →
        ((build_filter_complex 1080 1920 ["img0", "img1", "img2", "img3"] 12
            "script").transitions.getD (i - 1) default).offset = i * 12 - 4 / 5) ∧
    (transitionStages 4 12).map TransitionStage.offset
      = [56 / 5, 116 / 5, 176 / 5] := by
  refine ⟨rfl, by decide,
    transition_chain_offsets 1080 1920 4 12 _ "script" rfl (by decide), ?_⟩
  rw [transitionStages, show (4 : ℕ) - 1 = 3 from rfl,
    show List.range' 1 3 = [1, 2, 3] from rfl]
  norm_num [transitionStage, transition_duration]

/-- C2 counterexample: with total duration 1.5 and 3 images the per-image duration
is 0.5 ≤ 0.8; the timing computation still produces the value 1/2 (no
`InfeasibleError` exists in the code) and the graph builder emits a graph whose
first transition offset is the negative value -0.3 (no `GraphError` exists). -/
theorem no_infeasibility_error_counterexample :
    imageDurationOf (3 / 2) 3 = 1 / 2 ∧
    imageDurationOf (3 / 2) 3 ≤ transition_duration ∧
    (build_filter_complex 1080 1920 ["a", "b", "c"] (imageDurationOf (3 / 2) 3)
        "script").transitions.map TransitionStage.offset = [-(3 / 10), 1 / 5] ∧
    (-(3 / 10) : ℚ) < 0 := by
  have hd : imageDurationOf (3 / 2) 3 = 1 / 2 := by
    norm_num [imageDurationOf]
  refine ⟨hd, ?_, ?_, by norm_num⟩
  · rw [hd]
    norm_num [transition_duration]
  · rw [hd, transitions_of_build _ _ _ _ _ (by norm_num), transitionStages,
      show ["a", "b", "c"].length - 1 = 2 from rfl,
      show List.range' 1 2 = [1, 2] from rfl]
    norm_num [transitionStage, transition_duration]

/-- C2 amended: when `totalDuration / imageCount ≤ 0.8` (with at least 2 images),
neither component fails or clamps: the per-image duration `T / n` is produced
as-is and the graph builder emits its `n - 1` transition stages unchanged, the
first carrying the non-positive offset `T / n - 0.8`. -/
theorem unvalidated_infeasible_graph (T : ℚ) (n W H : ℕ) (imgs : List String)
    (script : String) (hlen : imgs.length = n) (hn : 2 ≤ n)
    (hinf : imageDurationOf T n ≤ transition_duration) :
    (build_filter_complex W H imgs (imageDurationOf T n) script).transitions.length
      = n - 1 ∧
    ((build_filter_complex W H imgs (imageDurationOf T n) script).transitions.getD
        0 default).offset = imageDurationOf T n - transition_duration ∧
    ((build_filter_complex W H imgs (imageDurationOf T n) script).transitions.getD
        0 default).offset ≤ 0 := by
  have h1 : imgs.length ≠ 1 := by omega
  have hoff : ((build_filter_complex W H imgs (imageDurationOf T n)
      script).transitions.getD 0 default).offset
      = imageDurationOf T n - transition_duration := by
    rw [transitions_of_build _ _ _ _ _ h1, hlen,
      transitionStages_getD n _ 0 (by omega)]
    have := transitionStage_offset (imageDurationOf T n) 1 le_rfl
    rw [show 1 + 0 = 1 from rfl, this]
    push_cast
    ring
  refine ⟨?_, hoff, ?_⟩
  · rw [transitions_of_build _ _ _ _ _ h1, hlen, transitionStages_length]
  · rw [hoff]
    linarith

/-- Witness for C2 (amended) at total duration 2 with 4 images: per-image
duration 1/2 ≤ 0.8, and the emitted first offset is 1/2 - 4/5 ≤ 0. -/
theorem unvalidated_infeasible_graph_witness :
    ["a", "b", "c", "d"].length = 4 ∧ 2 ≤ 4 ∧
    imageDurationOf 2 4 ≤ transition_duration ∧
    ((build_filter_complex 1080 1920 ["a", "b", "c", "d"] (imageDurationOf 2 4)
        "script").transitions.length = 3 ∧
      ((build_filter_complex 1080 1920 ["a", "b", "c", "d"] (imageDurationOf 2 4)
          "script").transitions.getD 0 default).offset
        = imageDurationOf 2 4 - transition_duration ∧
      ((build_filter_complex 1080 1920 ["a", "b", "c", "d"] (imageDurationOf 2 4)
          "script").transitions.getD 0 default).offset ≤ 0) :=
  ⟨rfl, by decide, by norm_num [imageDurationOf, transition_duration],
    unvalidated_infeasible_graph 2 4 1080 1920 _ "script" rfl (by decide)
      (by norm_num [imageDurationOf, transition_duration])⟩

/-- C9: effect assignment is a pure function of the image index via `index mod 3`:
it is invariant under shifting the index by 3, factors through `i % 3`, and maps
residues 0, 1, 2 to zoom-in, pan-right, zoom-out with over-scale factors 2, 6/5
(= 1.2) and 3/2 (= 1.5) applied to both output dimensions before center-cropping
to the fixed output size. -/
theorem effect_rotation_overscale (W H : ℕ) (image_duration : ℚ) (i : ℕ) :
    animationFor (i + 3) = animationFor i ∧
    animationFor i = animationFor (i % 3) ∧
    animationFor 0 = Animation.zoomIn ∧
    animationFor 1 = Animation.panRight ∧
    animationFor 2 = Animation.zoomOut ∧
    overscaleFactor Animation.zoomIn = 2 ∧
    overscaleFactor Animation.panRight = 6 / 5 ∧
    overscaleFactor Animation.zoomOut = 3 / 2 ∧
    (imageStage W H image_duration i).anim = animationFor i ∧
    (imageStage W H image_duration i).scaleW
      = overscaleFactor (animationFor i) * W ∧
    (imageStage W H image_duration i).scaleH
      = overscaleFactor (animationFor i) * H ∧
    (imageStage W H image_duration i).cropW = W ∧
    (imageStage W H image_duration i).cropH = H := by
  have hmod : (i + 3) % 3 = i % 3 := Nat.add_mod_right i 3
  have hmm : i % 3 % 3 = i % 3 := Nat.mod_mod_of_dvd i dvd_rfl
  refine ⟨?_, ?_, ?_, ?_, ?_, ?_, ?_, ?_, rfl, rfl, rfl, rfl, rfl⟩
  · simp [animationFor, hmod]
  · simp [animationFor, hmm]
  · rfl
  · rfl
  · rfl
  · rfl
  · norm_num [overscaleFactor]
  · norm_num [overscaleFactor]

/-- C8: a single-image input takes the fade-in/fade-out branch: fade-in at time 0
of length 0.5 and fade-out starting at `image_duration - 0.5`, with no cross-fade
transition stage; in particular with total duration 10 the fade-out starts at
9.5 = 19/2. -/
theorem single_image_fade_branch (W H : ℕ) (image_duration : ℚ)
    (img script : String) :
    (build_filter_complex W H [img] image_duration script).base
      = BaseVideo.singleImage 0 (1/2) (image_duration - 1/2) (1/2) ∧
    (build_filter_complex W H [img] image_duration script).base.isSingleImageBranch
      = true ∧
    (build_filter_complex W H [img] image_duration script).transitions = [] ∧
    (build_filter_complex W H [img] 10 script).base
      = BaseVideo.singleImage 0 (1/2) (19/2) (1/2) := by
  refine ⟨?_, ?_, ?_, ?_⟩
  · norm_num [build_filter_complex, buildBase]
  · norm_num [build_filter_complex, buildBase, BaseVideo.isSingleImageBranch]
  · norm_num [build_filter_complex, buildBase, FilterComplex.transitions,
      BaseVideo.transitions]
  · norm_num [build_filter_complex, buildBase]

/-- C6: caption extraction is exactly the pipeline the specification describes:
split on sentence boundaries, strip, keep the sentences longer than the minimum
threshold (10) that contain a hook word or are shorter than the maximum-impact
threshold (50), preserve order, truncate to the first 4, upper-case each. -/
theorem extract_key_phrases_eq_spec (script_text : String) :
    extract_key_phrases script_text = captionExtractionSpec script_text := by
  show ((splitSentences script_text).foldl extractStep []).take 4 = _
  rw [foldl_extractStep, List.nil_append]
  unfold captionExtractionSpec
  rw [List.map_take]

/-- C7: for a non-empty phrase list of length `k` and positive total duration `T`,
the caption schedule has one window per phrase, phrase `i` getting
`[i * T/k, (i+1) * T/k)`; consecutive windows meet, all windows are pairwise
non-overlapping, and a time lies in `[0, T)` exactly when it lies in some
window. -/
theorem caption_schedule_partition (phrases : List String) (T : ℚ)
    (hne : phrases ≠ []) (hT : 0 < T) :
    (create_subtitle_filter phrases T).length = phrases.length ∧
    (∀ i, i < phrases.length →
      ((create_subtitle_filter phrases T).getD i default).startTime
          = i * (T / phrases.length) ∧
      ((create_subtitle_filter phrases T).getD i default).endTime
          = (i + 1) * (T / phrases.length)) ∧
    (∀ i, i + 1 < phrases.length →
      ((create_subtitle_filter phrases T).getD i default).endTime
        = ((create_subtitle_filter phrases T).getD (i + 1) default).startTime) ∧
    (∀ i j, i < j → j < phrases.length →
      ((create_subtitle_filter phrases T).getD i default).endTime
        ≤ ((create_subtitle_filter phrases T).getD j default).startTime) ∧
    (∀ t : ℚ, (0 ≤ t ∧ t < T) ↔
      ∃ i, i < phrases.length ∧
        ((create_subtitle_filter phrases T).getD i default).startTime ≤ t ∧
        t < ((create_subtitle_filter phrases T).getD i default).endTime) := by
  have hk : 0 < phrases.length := List.length_pos.mpr hne
  have hkQ : (0 : ℚ) < phrases.length := by exact_mod_cast hk
  have hTk : (0 : ℚ) < T / phrases.length := div_pos hT hkQ
  have hwin : ∀ i, i < phrases.length →
      ((create_subtitle_filter phrases T).getD i default).startTime
          = i * (T / phrases.length) ∧
      ((create_subtitle_filter phrases T).getD i default).endTime
          = (i + 1) * (T / phrases.length) := by
    intro i hi
    rw [create_subtitle_filter_getD phrases T i hne hi]
    exact ⟨rfl, rfl⟩
  refine ⟨create_subtitle_filter_length phrases T hne, hwin, ?_, ?_, ?_⟩
  · intro i hi
    rw [(hwin i (by omega)).2, (hwin (i + 1) hi).1]
    push_cast
    ring
  · intro i j hij hj
    rw [(hwin i (by omega)).2, (hwin j hj).1]
    have hij' : ((i : ℚ) + 1) ≤ (j : ℚ) := by exact_mod_cast hij
    exact mul_le_mul_of_nonneg_right hij' hTk.le
  · intro t
    constructor
    · rintro ⟨h0, hlt⟩
      obtain ⟨i, hik, hs, he⟩ :=
        partition_index_exists phrases.length T t hk hT h0 hlt
      refine ⟨i, hik, ?_, ?_⟩
      · rw [(hwin i hik).1]
        exact hs
      · rw [(hwin i hik).2]
        exact he
    · rintro ⟨i, hik, hs, he⟩
      rw [(hwin i hik).1] at hs
      rw [(hwin i hik).2] at he
      have hiQ : (0 : ℚ) ≤ (i : ℚ) := by positivity
      have hik' : ((i : ℚ) + 1) ≤ (phrases.length : ℚ) := by exact_mod_cast hik
      have hub : ((i : ℚ) + 1) * (T / phrases.length)
          ≤ phrases.length * (T / phrases.length) :=
        mul_le_mul_of_nonneg_right hik' hTk.le
      have hclose : (phrases.length : ℚ) * (T / phrases.length) = T := by
        field_simp
      constructor
      · have : (0 : ℚ) ≤ (i : ℚ) * (T / phrases.length) :=
          mul_nonneg hiQ hTk.le
        linarith
      · linarith

/-- Witness for C7: a concrete two-phrase schedule over a 10-second duration. -/
theorem caption_schedule_partition_witness :
    (["HELLO WORLD", "THE END"] : List String) ≠ [] ∧ (0 : ℚ) < 10 ∧
    ((create_subtitle_filter ["HELLO WORLD", "THE END"] 10).length = 2 ∧
      (∀ i, i < 2 →
        ((create_subtitle_filter ["HELLO WORLD", "THE END"] 10).getD i
            default).startTime = i * (10 / 2) ∧
        ((create_subtitle_filter ["HELLO WORLD", "THE END"] 10).getD i
            default).endTime = (i + 1) * (10 / 2)) ∧
      (∀ i, i + 1 < 2 →
        ((create_subtitle_filter ["HELLO WORLD", "THE END"] 10).getD i
            default).endTime
          = ((create_subtitle_filter ["HELLO WORLD", "THE END"] 10).getD (i + 1)
              default).startTime) ∧
      (∀ i j, i < j → j < 2 →
        ((create_subtitle_filter ["HELLO WORLD", "THE END"] 10).getD i
            default).endTime
          ≤ ((create_subtitle_filter ["HELLO WORLD", "THE END"] 10).getD j
              default).startTime) ∧
      (∀ t : ℚ, (0 ≤ t ∧ t < 10) ↔
        ∃ i, i < 2 ∧
          ((create_subtitle_filter ["HELLO WORLD", "THE END"] 10).getD i
              default).startTime ≤ t ∧
          t < ((create_subtitle_filter ["HELLO WORLD", "THE END"] 10).getD i
              default).endTime)) :=
  ⟨by decide, by decide,
    caption_schedule_partition ["HELLO WORLD", "THE END"] 10 (by decide)
      (by decide)⟩

/-- C10: whenever the optimization invocation fails (non-zero exit code or a
raised exception), `optimize_for_youtube_shorts` returns the original input
artifact path, never an error. -/
theorem optimizer_failure_returns_original (video_path optimized_path : String)
    (outcome : Except String ℤ)
    (h : optimizeInvocationFailed outcome = true) :
    optimize_for_youtube_shorts video_path optimized_path outcome = video_path := by
  cases outcome with
  | error e => rfl
  | ok rc =>
    simp only [optimizeInvocationFailed, Bool.not_eq_true', decide_eq_false_iff_not] at h
    simp [optimize_for_youtube_shorts, h]

/-- Witness for C10 at a concrete failing invocation (exit code 1). -/
theorem optimizer_failure_returns_original_witness :
    optimizeInvocationFailed (Except.ok 1) = true ∧
    optimize_for_youtube_shorts "video.mp4" "optimized_video.mp4" (Except.ok 1)
      = "video.mp4" :=
  ⟨by decide, optimizer_failure_returns_original _ _ _ (by decide)⟩

/-- C3 counterexample: the external process exits with code 0 and the declared
output file exists but is empty (size 0); the orchestrator reports success (the
output path), not a failure. -/
theorem zero_exit_empty_file_reported_success :
    renderReportedOutcome 0 (some 0) "out.mp4" = some "out.mp4" := by decide

/-- C3 amended: the reported outcome is success exactly when the process exits 0
and the output file exists — non-emptiness is never validated, and the outcome is
always either that success or a failure. -/
theorem render_success_iff_exit_zero_and_file_present (returncode : ℤ)
    (outputFileSize : Option ℕ) (output_path : String) :
    (renderReportedOutcome returncode outputFileSize output_path = some output_path
      ↔ returncode = 0 ∧ outputFileSize.isSome = true) ∧
    (renderReportedOutcome returncode outputFileSize output_path = some output_path
      ∨ renderReportedOutcome returncode outputFileSize output_path = none) := by
  constructor
  · unfold renderReportedOutcome declareOutcome interpretExitCode
    by_cases h : returncode = 0 <;> cases outputFileSize <;> simp [h]
  · unfold renderReportedOutcome declareOutcome
    by_cases h : (interpretExitCode returncode && outputFileSize.isSome) = true <;>
      simp [h]

/-- C4: line 125 of `_create_video_with_ffmpeg` reads the free name `script_data`,
which is bound neither in the function scope nor at module level, so the body
raises `NameError` on every call; the handler of lines 177-179 turns that into
`False`, hence `create_vertical_video` returns `None` for every input. -/
theorem render_step_always_fails (image_paths : List String)
    (audio_path : String) (output_path : String) (image_duration : ℚ)
    (audioDuration : Option ℚ) (returncode : ℤ) (outputFileSize : Option ℕ) :
    nameInScope "script_data" = false ∧
    createVideoBody returncode
      = Except.error "NameError: name script_data is not defined" ∧
    create_video_with_ffmpeg image_paths audio_path output_path image_duration
      returncode = false ∧
    create_vertical_video image_paths audio_path audioDuration returncode
      outputFileSize output_path = none := by
  have hscope : nameInScope "script_data" = false := by decide
  have hbody : createVideoBody returncode
      = Except.error "NameError: name script_data is not defined" := by
    unfold createVideoBody
    rw [hscope]
    simp
  have hff : ∀ (ips : List String) (ap op : String) (d : ℚ),
      create_video_with_ffmpeg ips ap op d returncode = false := by
    intro ips ap op d
    unfold create_video_with_ffmpeg
    rw [hbody]
  refine ⟨hscope, hbody, hff _ _ _ _, ?_⟩
  unfold create_vertical_video
  split
  · rfl
  · cases audioDuration with
    | none => rfl
    | some total =>
      simp only
      split
      · rfl
      · rw [hff]
        simp [declareOutcome]

set_option maxRecDepth 16000 in
/-- C5: on a script where no sentence qualifies, the caption schedule is empty
(extraction succeeds with `[]`, not an error) and the built graph carries no
caption overlay stage; but the builder still emits the final stage wrapper from
`[base]` to `[output]` with an empty filter list between the two labels, i.e. the
serialized graph ends in `;[base][output]`, an empty filterchain. -/
theorem empty_caption_schedule_graph :
    extract_key_phrases noCaptionScript = [] ∧
    create_subtitle_filter (extract_key_phrases noCaptionScript) (3 * 16) = [] ∧
    (build_filter_complex 1080 1920 ["a", "b", "c"] 16 noCaptionScript).subtitles
      = [] ∧
    (build_filter_complex 1080 1920 ["a", "b", "c"] 16
      noCaptionScript).finalInputLabel = "base" ∧
    (build_filter_complex 1080 1920 ["a", "b", "c"] 16
      noCaptionScript).finalOutputLabel = "output" := by
  have h : extract_key_phrases noCaptionScript = [] := by decide
  refine ⟨h, ?_, ?_, rfl, rfl⟩
  · rw [h]
    rfl
  · simp only [build_filter_complex]
    rw [h]
    rfl

end VideoService
